import Mathlib

/-!
Verification of the user-account and credential lifecycle subsystem of
projectCatalog against its natural-language specification.

The definitions below are a shallow embedding of the `UserManagment`
class (`src/frontend/src/components/contentDisplay/confirmationPopup.tsx`,
second document in the file).  DynamoDB tables, the S3 object store and
the article tables are modelled as explicit lists inside a `DB` state
record; every operation is a pure function from inputs, oracle values
(current unix time, the random bytes drawn by `Math.random`, the
success/failure outcomes of external calls) and a `DB` state to an
`ApiResponse` together with the successor state.

External collaborator classes of the repository that are not part of the
provided sources (`Tokens`, `S3`, `Articles`, `Email`, `Helper`, bcryptjs
and jsonwebtoken) are modelled from the specification; each such
definition carries a doc comment saying so.
-/

/-- JavaScript values that flow through the generic `updateUser` field
update and through token/JWT payloads: strings, numbers, arrays of
strings, and `undefined` (a missing property). -/
inductive JsVal where
  | s (v : String)
  | n (v : Int)
  | arr (v : List String)
  | undef
deriving DecidableEq

/-- The `ProfilePicChange` attribute is either the literal string
`null` (the unset sentinel written by `createUser`) or a unix-seconds
number written by `changeProfilePic`. -/
inductive PicStamp where
  | strNull
  | time (t : Int)
deriving DecidableEq

/-- The `UserObject` interface of the source: one row of the `Users`
table.  `Password` holds the bcrypt hash. -/
structure User where
  Username : String
  Password : String
  Email : String
  Admin : String
  CanPost : String
  Verified : String
  LastPasswordChange : Int
  LastEmailChange : Int
  Liked : List String
  ProfilePic : String
  ProfilePicChange : PicStamp
  AccountCreated : Int
deriving DecidableEq

/-- A verification token as created by the account flows: owner,
opaque value (the lookup key), type tag, unix-seconds expiration and,
for email-change tokens, the pending new email address. -/
structure Token where
  username : String
  value : String
  ty : String
  expiration : Int
  newEmail : Option String := none
deriving DecidableEq

/-- An article row; only the fields the account subsystem touches. -/
structure Article where
  ID : String
  Author : String
  AuthorProfilePic : String
deriving DecidableEq

/-- The persistent state seen by the account subsystem: the `Users`
table, the token store, the set of image ids in the S3 bucket, and the
two article tables. -/
structure DB where
  users : List User
  tokens : List Token
  images : List String
  articlesUnpublished : List Article
  articlesPublished : List Article
deriving DecidableEq

/-- A JSON object (JWT claims payloads) as an association list. -/
abbrev Obj : Type := List (String × JsVal)

/-- The uniform response envelope `{ status, response: { message, ... } }`.
`token`, `refresh` and `user` hold, when present, the claims payload of a
JWT returned under the `accessToken`/`verificationToken`,
`refreshToken` and `user` keys of the response object. -/
structure ApiResponse where
  status : Nat
  message : String
  token : Option Obj := none
  refresh : Option Obj := none
  user : Option Obj := none
deriving DecidableEq

/-- Looks a key up in an object. -/
def objLookup (o : Obj) (key : String) : Option JsVal :=
  (List.find? (fun kv => kv.fst == key) o).map (fun kv => kv.snd)

/-- The JavaScript `delete obj.key` operation. -/
def objDelete (o : Obj) (key : String) : Obj :=
  List.filter (fun kv => kv.fst != key) o

/-- The enumeration of a fetched user row as a JavaScript object, in the
field order of the `UserObject` interface. -/
def userToObj (u : User) : Obj :=
  [("Username", JsVal.s u.Username),
   ("Password", JsVal.s u.Password),
   ("Email", JsVal.s u.Email),
   ("Admin", JsVal.s u.Admin),
   ("CanPost", JsVal.s u.CanPost),
   ("Verified", JsVal.s u.Verified),
   ("LastPasswordChange", JsVal.n u.LastPasswordChange),
   ("LastEmailChange", JsVal.n u.LastEmailChange),
   ("Liked", JsVal.arr u.Liked),
   ("ProfilePic", JsVal.s u.ProfilePic),
   ("ProfilePicChange",
     match u.ProfilePicChange with
     | PicStamp.strNull => JsVal.s "null"
     | PicStamp.time t => JsVal.n t),
   ("AccountCreated", JsVal.n u.AccountCreated)]

/-- Modelled from the spec: bcryptjs `hash` with a per-call random salt
(the salt is passed explicitly as the randomness oracle of the call). -/
def genPassHash (salt password : String) : String :=
  "bcrypt$" ++ salt ++ "$" ++ password

/-- Modelled from the spec: bcryptjs `compare` - true iff the password
matches the one the hash was produced from, false on malformed input. -/
def compareHash (password hash : String) : Bool :=
  List.isPrefixOf "bcrypt$".data hash.data &&
    List.isSuffixOf ("$" ++ password).data hash.data

/-- The lowercase hex digit of a nibble, as produced by
`byte.toString(16)`. -/
def hexDigitChar (nib : Nat) : Char :=
  if nib < 10 then Char.ofNat (48 + nib) else Char.ofNat (87 + nib)

/-- One byte rendered as two lowercase hex characters
(`byte.toString(16).padStart(2, materialized)`); the `% 256` is the
`Uint8Array` coercion. -/
def byteToHexChars (b : Nat) : List Char :=
  [hexDigitChar (b % 256 / 16), hexDigitChar (b % 256 % 16)]

/-- `UserManagment.randomBytesHex`: fills a buffer with random bytes and
hex-encodes it.  The random bytes drawn by `Math.random` are passed in as
the `bytes` oracle; the source calls this with `length` = `bytes.length`
random draws. -/
def randomBytesHex (bytes : List Nat) : String :=
  String.mk (List.flatten (bytes.map byteToHexChars))

/-- `UserManagment.checkCanPost`: admin or posting permission, compared
against the literal string true. -/
def checkCanPost (u : User) : Bool :=
  if u.Admin = "true" then true
  else if u.CanPost = "true" then true
  else false

/-- `UserManagment.profilePicCooldown = 7 * 24 * 60 * 60`. -/
def profilePicCooldown : Int := 7 * 24 * 60 * 60

/-- `UserManagment.checkProfilePictureCooldown`: false (blocked) iff the
stamp is not the `null` sentinel and less than the cooldown has elapsed. -/
def checkProfilePictureCooldown (now : Int) (stamp : PicStamp) : Bool :=
  match stamp with
  | PicStamp.strNull => true
  | PicStamp.time t => if now - t < profilePicCooldown then false else true

/-- JavaScript truthiness of a string: every nonempty string is truthy
(so the literal string false is truthy). -/
def jsTruthy (s : String) : Bool := s != ""

/-- `UserManagment.getUser`: fetch of a row of the `Users` table by
primary key. -/
def getUser (db : DB) (username : String) : Option User :=
  List.find? (fun u => u.Username == username) db.users

/-- Modelled from the spec: `Tokens.getToken` of the Token Store - looks
the token up by its opaque value. -/
def getToken (db : DB) (value : String) : Option Token :=
  List.find? (fun t => t.value == value) db.tokens

/-- Modelled from the spec: `Tokens.createToken` - persists a token,
overwriting any prior entry with the same value. -/
def createToken (db : DB) (tok : Token) : DB :=
  { db with tokens := tok :: List.filter (fun t => t.value != tok.value) db.tokens }

/-- Modelled from the spec: `Tokens.deleteToken` - removes the token
with the given value. -/
def deleteToken (db : DB) (value : String) : DB :=
  { db with tokens := List.filter (fun t => t.value != value) db.tokens }

/-- Modelled from the spec: `Tokens.deleteUserTokens` - removes every
token owned by the user. -/
def deleteUserTokens (db : DB) (username : String) : DB :=
  { db with tokens := List.filter (fun t => t.username != username) db.tokens }

/-- Modelled from the spec: `S3.removeImageFromS3` - removes an image id
from the object store; when the call reports failure the store is
unchanged. -/
def s3Remove (ok : Bool) (db : DB) (id : String) : DB :=
  if ok then { db with images := List.filter (fun x => x != id) db.images } else db

/-- Modelled from the spec: `S3.saveImage` on success - stores the image
under the fresh id. -/
def s3Save (db : DB) (id : String) : DB :=
  { db with images := id :: db.images }

/-- Modelled from the spec: `Articles.removeAllArticlesByUser` on
success - removes the user-authored rows of both article tables. -/
def removeAllArticlesByUser (db : DB) (username : String) : DB :=
  { db with
    articlesUnpublished :=
      List.filter (fun a => a.Author != username) db.articlesUnpublished,
    articlesPublished :=
      List.filter (fun a => a.Author != username) db.articlesPublished }

/-- The article fan-out of `changeProfilePic`: querying each table for
the rows whose `Author` is the user (index `AuthorDifficulty`,
projection `ID`) and rewriting `AuthorProfilePic` on each of them. -/
def updateAuthorPics (db : DB) (username newUrl : String) : DB :=
  { db with
    articlesUnpublished :=
      db.articlesUnpublished.map
        (fun a => if a.Author == username then { a with AuthorProfilePic := newUrl } else a),
    articlesPublished :=
      db.articlesPublished.map
        (fun a => if a.Author == username then { a with AuthorProfilePic := newUrl } else a) }

/-- The allow-list of mutable user fields in `updateUser`. -/
def allowedFields : List String :=
  ["Email", "Password", "ProfilePic", "ProfilePicChange", "CanPost",
   "Admin", "Liked", "Verified", "LastPasswordChange", "LastEmailChange"]

/-- Applies a single-field `SET` on a user row.  The cases cover the
attribute/value shapes the call sites produce; the DynamoDB marshalling
of other shapes is never exercised, so a mismatched shape leaves the row
as it was. -/
def setField (u : User) (fieldName : String) (v : JsVal) : User :=
  if fieldName = "Email" then
    match v with | JsVal.s x => { u with Email := x } | _ => u
  else if fieldName = "Password" then
    match v with | JsVal.s x => { u with Password := x } | _ => u
  else if fieldName = "ProfilePic" then
    match v with | JsVal.s x => { u with ProfilePic := x } | _ => u
  else if fieldName = "ProfilePicChange" then
    match v with
    | JsVal.n t => { u with ProfilePicChange := PicStamp.time t }
    | JsVal.s x =>
        if x = "null" then { u with ProfilePicChange := PicStamp.strNull } else u
    | _ => u
  else if fieldName = "CanPost" then
    match v with | JsVal.s x => { u with CanPost := x } | _ => u
  else if fieldName = "Admin" then
    match v with | JsVal.s x => { u with Admin := x } | _ => u
  else if fieldName = "Liked" then
    match v with | JsVal.arr x => { u with Liked := x } | _ => u
  else if fieldName = "Verified" then
    match v with | JsVal.s x => { u with Verified := x } | _ => u
  else if fieldName = "LastPasswordChange" then
    match v with | JsVal.n t => { u with LastPasswordChange := t } | _ => u
  else if fieldName = "LastEmailChange" then
    match v with | JsVal.n t => { u with LastEmailChange := t } | _ => u
  else u

/-- The state effect of a successful `UpdateItemCommand` of
`updateUser`: the row with the given key gets the field replaced. -/
def updateUserDb (db : DB) (username fieldName : String) (v : JsVal) : DB :=
  { db with
    users := db.users.map
      (fun u => if u.Username == username then setField u fieldName v else u) }

/-- `UserManagment.updateUser`: allow-list check, attribute-type check
(`undefined` is the one unsupported shape the call sites can produce),
then the keyed single-field update, 404 when the row is absent. -/
def updateUser (db : DB) (username fieldName : String) (v : JsVal) :
    ApiResponse × DB :=
  if fieldName ∉ allowedFields then
    ({ status := 400, message := "Disallowed field" }, db)
  else if v = JsVal.undef then
    ({ status := 400, message := "Unsupported data type" }, db)
  else
    match getUser db username with
    | none => ({ status := 404, message := "User not found" }, db)
    | some _ =>
        ({ status := 200, message := "Item updated successfully" },
         updateUserDb db username fieldName v)

/-- A character of the `[a-f0-9-]` class of the old-image regex in
`changeProfilePic`. -/
def hexDashChar (c : Char) : Bool :=
  (decide (Char.ofNat 97 ≤ c) && decide (c ≤ Char.ofNat 102)) ||
    (decide (Char.ofNat 48 ≤ c) && decide (c ≤ Char.ofNat 57)) ||
    c == '-'

/-- The extension alternatives of the old-image regex. -/
def picExts : List String := ["png", "jpg", "jpeg", "gif"]

/-- The maximal suffix of a character list all of whose characters
satisfy the predicate. -/
def suffixRun (p : Char → Bool) (l : List Char) : List Char :=
  (List.takeWhile p l.reverse).reverse

/-- The end-anchored old-image regex of `changeProfilePic`: the url
matches when it ends in a dot, one of the four extensions, and the
(nonempty, `[a-f0-9-]`-only) image id directly preceded by the literal
`images/`; the returned group is the id.  Backtracking makes the matched
id exactly the maximal `[a-f0-9-]` run before the extension dot. -/
def matchProfilePicImageId (url : String) : Option String :=
  let cs := url.data
  match List.find? (fun e => List.isSuffixOf ('.' :: e.data) cs) picExts with
  | none => none
  | some e =>
    let stem := cs.take (cs.length - (e.length + 1))
    let run := suffixRun hexDashChar stem
    let pre := stem.take (stem.length - run.length)
    if run ≠ [] ∧ List.isSuffixOf "images/".data pre then some (String.mk run)
    else none

/-- The index of the last dot of a character list, if any. -/
def lastDotIdx (run : List Char) : Option Nat :=
  match List.findIdx? (fun c => c == '.') run.reverse with
  | some j => some (run.length - 1 - j)
  | none => none

/-- The unanchored profile-image regex of `deleteUserAccount`,
`images/` then a nonempty `[^/]+` group then a dot, with JavaScript
leftmost-match semantics: at each position where the literal `images/`
starts, the candidate group is the maximal non-slash run cut at its last
dot (greedy `[^/]+` backtracking to the final dot); the group must be
nonempty, otherwise matching resumes at the next position. -/
def jsImagesMatch : List Char → Option (List Char)
  | [] => none
  | c :: rest =>
    if List.isPrefixOf "images/".data (c :: rest) then
      let run := List.takeWhile (fun x => x != '/') (List.drop 7 (c :: rest))
      match lastDotIdx run with
      | some i => if 1 ≤ i then some (List.take i run) else jsImagesMatch rest
      | none => jsImagesMatch rest
    else jsImagesMatch rest

/-- The `AWS_S3_LINK` configuration value used to build image urls. -/
def awsS3Link : String :=
  "https://project-catalog-storage.s3.us-east-2.amazonaws.com"

/-- The response returned by `verifyUser` on either authentication
failure (absent user and wrong password share it verbatim). -/
def invalidLoginRes : ApiResponse :=
  { status := 401, message := "invalid login credentials" }

/-- The three delete statements run on a fetched user object before it
is signed into a JWT: `delete user.Password; delete user.Liked;
delete user.VerificationCode`. -/
def strippedClaims (user : User) : Obj :=
  objDelete (objDelete (objDelete (userToObj user) "Password") "Liked")
    "VerificationCode"

/-- `UserManagment.verifyUser` (Authenticate): uniform 401 when the user
is absent or the password does not match; on success the `Password`,
`Liked` and `VerificationCode` properties are deleted from the user
object before it is signed into the access and refresh JWTs, and the
decoded access-token claims are returned as `user`. -/
def verifyUser (db : DB) (username password : String) : ApiResponse :=
  match getUser db username with
  | none => invalidLoginRes
  | some user =>
    if compareHash password user.Password = false then invalidLoginRes
    else
      let claims := strippedClaims user
      { status := 200, message := "", token := some claims,
        refresh := some claims, user := some claims }

/-- `UserManagment.verifyEmail`: looks the code up, requires type
`email_verification`, 404 when absent; 404 when the owner is missing,
410 when already verified; otherwise flips `Verified` to true and only
then deletes the token.  A failing update throws, caught as a 500. -/
def verifyEmail (db : DB) (verificationCode : String) : ApiResponse × DB :=
  match getToken db verificationCode with
  | some token =>
    if token.ty = "email_verification" then
      match getUser db token.username with
      | some user =>
        if user.Verified = "false" then
          let r := updateUser db token.username "Verified" (JsVal.s "true")
          if r.1.status = 200 then
            ({ status := 200, message := "email verified" },
             deleteToken r.2 verificationCode)
          else ({ status := 500, message := "server error" }, r.2)
        else ({ status := 410, message := "account already verified" }, db)
      | none => ({ status := 404, message := "user not found" }, db)
    else
      ({ status := 404, message := "invalid or expired verification code" }, db)
  | none =>
    ({ status := 404, message := "invalid or expired verification code" }, db)

/-- `UserManagment.verifyEmailChange`: 410 when the token is missing,
of the wrong type or past its expiration (the expired token is left in
the store); otherwise writes the pending new email onto the user and
deletes the token. -/
def verifyEmailChange (db : DB) (now : Int) (tokenValue : String) :
    ApiResponse × DB :=
  match getToken db tokenValue with
  | none =>
    ({ status := 410, message := "Verification token is invalid or has expired." }, db)
  | some storedToken =>
    if storedToken.ty ≠ "email_change" ∨ storedToken.expiration < now then
      ({ status := 410, message := "Verification token is invalid or has expired." }, db)
    else
      match getUser db storedToken.username with
      | none => ({ status := 404, message := "User not found." }, db)
      | some _ =>
        let r := updateUser db storedToken.username "Email"
          (match storedToken.newEmail with
           | some e => JsVal.s e
           | none => JsVal.undef)
        if r.1.status ≠ 200 then r
        else
          ({ status := 200, message := "Email address successfully updated." },
           deleteToken r.2 tokenValue)

/-- `UserManagment.requestEmailChange`: 404 when the user is absent, 429
inside the 3-hour window from `LastEmailChange`, 401 on password
mismatch; otherwise creates a 6-hour `email_change` token carrying the
new email (`rand` is the oracle for the 24 random bytes drawn), stores
`LastEmailChange := now` in the database, then mutates
`LastPasswordChange` (not `LastEmailChange`) on the in-memory user
object and signs that object - `Password` and `Liked` included - into
the returned access token. -/
def requestEmailChange (db : DB) (now : Int) (rand : List Nat)
    (username password newEmail : String) : ApiResponse × DB :=
  match getUser db username with
  | none => ({ status := 404, message := "User not found." }, db)
  | some user =>
    if user.LastEmailChange + 3 * 60 * 60 > now then
      ({ status := 429,
         message := "you have requested an email change recently. Please try again later." },
       db)
    else if compareHash password user.Password = false then
      ({ status := 401, message := "Invalid password." }, db)
    else
      let verificationTokenValue := randomBytesHex rand
      let token : Token :=
        { username := username, value := verificationTokenValue,
          ty := "email_change", expiration := now + 6 * 3600,
          newEmail := some newEmail }
      let db1 := createToken db token
      let r := updateUser db1 user.Username "LastEmailChange" (JsVal.n now)
      let user2 := { user with LastPasswordChange := now }
      let claims := userToObj user2
      ({ status := 200,
         message := "Verification email sent to new email address.",
         token := some claims, user := some claims }, r.2)

/-- `UserManagment.resetPassword`: 404 when the code is missing or not a
`password_reset` token; when expired, deletes the token and returns 410;
otherwise generates `username + randomBytesHex(8)` as the new password
(`rand` is the oracle for those 8 random bytes, `salt` for the bcrypt
salt), stores its hash, deletes the token and returns 200 - the outcome
of the notification email (`emailOk`) is only logged. -/
def resetPassword (db : DB) (now : Int) (rand : List Nat) (salt : String)
    (emailOk : Bool) (verificationCode : String) : ApiResponse × DB :=
  match getToken db verificationCode with
  | some token =>
    if token.ty = "password_reset" then
      if token.expiration < now then
        ({ status := 410,
           message := "Verification code has expired. Please request a new password reset." },
         deleteToken db verificationCode)
      else
        match getUser db token.username with
        | some _user =>
          let newPassword := token.username ++ randomBytesHex rand
          let hashedPassword := genPassHash salt newPassword
          let r := updateUser db token.username "Password" (JsVal.s hashedPassword)
          if r.1.status = 200 then
            ({ status := 200,
               message := "Password reset successful. Please check your email for the new password." },
             deleteToken r.2 verificationCode)
          else ({ status := 500, message := "Server error. Please try again later." }, r.2)
        | none => ({ status := 404, message := "User not found." }, db)
    else ({ status := 404, message := "Invalid or expired verification code." }, db)
  | none => ({ status := 404, message := "Invalid or expired verification code." }, db)

/-- `UserManagment.changeProfilePic`: 404 when the user is absent, 403
when the cooldown has not elapsed; then stamps `ProfilePicChange := now`
through `updateUser` before any object-store call, deletes the previous
image when its url matches the naming pattern (the call result is
ignored), and attempts the 350x350 save of the new image (`newImageId`
is the uuid oracle, `s3SaveOk` the save outcome) - on save failure the
flow aborts with a 500 leaving the stamp applied.  On success the
articles of both tables are re-pointed whenever `user.Admin` or
`user.CanPost` is truthy (every nonempty string is), the user row gets
the new url, and the response carries a fresh JWT of the updated
object after deleting `Password` and `Liked`. -/
def changeProfilePic (db : DB) (now : Int) (newImageId : String)
    (s3RemoveOk s3SaveOk : Bool) (username : String) : ApiResponse × DB :=
  match getUser db username with
  | none => ({ status := 404, message := "user not found" }, db)
  | some user =>
    if checkProfilePictureCooldown now user.ProfilePicChange = false then
      ({ status := 403,
         message := "the user profile picture was changed in the last week" }, db)
    else
      let r1 := updateUser db user.Username "ProfilePicChange" (JsVal.n now)
      if r1.1.status ≠ 200 then r1
      else
        let user1 := { user with ProfilePicChange := PicStamp.time now }
        let db2 :=
          match matchProfilePicImageId user1.ProfilePic with
          | some oldId => s3Remove s3RemoveOk r1.2 oldId
          | none => r1.2
        let user2 :=
          { user1 with ProfilePic := awsS3Link ++ "/images/" ++ newImageId ++ ".png" }
        if s3SaveOk = false then
          ({ status := 500, message := "server error" }, db2)
        else
          let db3 := s3Save db2 newImageId
          let db4 :=
            if jsTruthy user2.Admin || jsTruthy user2.CanPost then
              updateAuthorPics db3 user2.Username user2.ProfilePic
            else db3
          let r2 := updateUser db4 username "ProfilePic" (JsVal.s user2.ProfilePic)
          let claims := strippedClaims user2
          ({ r2.1 with token := some claims, user := some claims }, r2.2)

/-- `UserManagment.deleteUser`: keyed delete of the user row, 404 when
it was absent. -/
def deleteUser (db : DB) (username : String) : ApiResponse × DB :=
  match getUser db username with
  | none => ({ status := 404, message := "account not found" }, db)
  | some _ =>
    ({ status := 200, message := "account deleted succesfuly" },
     { db with users := List.filter (fun u => u.Username != username) db.users })

/-- `UserManagment.deleteUserAccount`: 404 when the user is absent, 403
on password mismatch (nothing is touched); then extracts the profile
image id from the url (a non-matching url throws, caught as 500),
removes the image unless it is the `pfp` default sentinel, deletes the
user tokens, deletes the user articles and finally the user row - each
step short-circuiting on failure (`s3ok`, `tokOk`, `artOk` are the
outcome oracles of the three external calls). -/
def deleteUserAccount (db : DB) (s3ok tokOk artOk : Bool)
    (username password : String) : ApiResponse × DB :=
  match getUser db username with
  | none => ({ status := 404, message := "user not found." }, db)
  | some user =>
    if compareHash password user.Password = false then
      ({ status := 403, message := "invalid password." }, db)
    else
      match jsImagesMatch user.ProfilePic.data with
      | none => ({ status := 500, message := "Server error while deleting user account." }, db)
      | some idChars =>
        let id := String.mk idChars
        let afterPic : Option DB :=
          if id ≠ "pfp" then
            (if s3ok then some (s3Remove true db id) else none)
          else some db
        match afterPic with
        | none => ({ status := 500, message := "server error" }, db)
        | some db1 =>
          if tokOk = false then ({ status := 500, message := "server error" }, db1)
          else
            let db2 := deleteUserTokens db1 username
            if artOk = false then ({ status := 500, message := "server error" }, db2)
            else deleteUser (removeAllArticlesByUser db2 username) username

theorem setField_Username (u : User) (fieldName : String) (v : JsVal) :
    (setField u fieldName v).Username = u.Username := by
  unfold setField
  repeat' first | rfl | split

theorem find?_map_setField (n fieldName : String) (v : JsVal) (l : List User) :
    List.find? (fun u => u.Username == n)
        (l.map (fun u => if u.Username == n then setField u fieldName v else u)) =
      (List.find? (fun u => u.Username == n) l).map
        (fun u => setField u fieldName v) := by
  induction l with
  | nil => rfl
  | cons a t ih =>
    by_cases h : a.Username = n
    · simp [List.find?, h, setField_Username]
    · simp only [List.map_cons, List.find?]
      rw [if_neg (by simp [h])]
      simp only [show (a.Username == n) = false by simp [h]]
      exact ih

theorem getUser_updateUserDb_self (db : DB) (n fieldName : String) (v : JsVal) :
    getUser (updateUserDb db n fieldName v) n =
      (getUser db n).map (fun u => setField u fieldName v) := by
  unfold getUser updateUserDb
  exact find?_map_setField n fieldName v db.users

/-- Sample bcrypt salt-and-hash of the password secret11. -/
def aliceHash : String := genPassHash "s1" "secret11"

/-- A sample unverified user with the default profile picture. -/
def alice : User :=
  { Username := "alice", Password := aliceHash, Email := "alice@x.com",
    Admin := "false", CanPost := "true", Verified := "false",
    LastPasswordChange := 7, LastEmailChange := 5, Liked := ["art9"],
    ProfilePic := "https://x.com/images/pfp.png",
    ProfilePicChange := PicStamp.strNull, AccountCreated := 1 }

/-- A sample store: alice, one token slot to be filled per scenario, one
unrelated image, one published article authored by alice. -/
def sampleDB (toks : List Token) : DB :=
  { users := [alice], tokens := toks, images := ["other-img"],
    articlesUnpublished := [],
    articlesPublished := [{ ID := "a1", Author := "alice", AuthorProfilePic := "old-url" }] }

/-- An email-change token for alice that expired at unix second 50. -/
def expiredChangeTok : Token :=
  { username := "alice", value := "tokA", ty := "email_change",
    expiration := 50, newEmail := some "new@x.com" }

/-- A password-reset token for alice that expired at unix second 50. -/
def expiredResetTok : Token :=
  { username := "alice", value := "tokB", ty := "password_reset",
    expiration := 50, newEmail := none }

/-- An email-verification token for alice whose expiration (second 2)
lies in the past. -/
def expiredVerifTok : Token :=
  { username := "alice", value := "tokC", ty := "email_verification",
    expiration := 2, newEmail := none }

theorem objLookup_cons (a : String × JsVal) (t : Obj) (k : String) :
    objLookup (a :: t) k = if a.fst = k then some a.snd else objLookup t k := by
  by_cases h : a.fst = k
  · simp [objLookup, List.find?, h]
  · have hb : (a.fst == k) = false := beq_eq_false_iff_ne.mpr h
    simp [objLookup, List.find?, hb, h]

theorem objDelete_cons (a : String × JsVal) (t : Obj) (k : String) :
    objDelete (a :: t) k = if a.fst = k then objDelete t k else a :: objDelete t k := by
  by_cases h : a.fst = k
  · have hb : (a.fst != k) = false := by simp [bne, h]
    simp [objDelete, List.filter, hb, h]
  · have hb : (a.fst != k) = true := by simp [bne, beq_eq_false_iff_ne.mpr h]
    simp [objDelete, List.filter, hb, h]

theorem objLookup_objDelete_self (o : Obj) (k : String) :
    objLookup (objDelete o k) k = none := by
  induction o with
  | nil => rfl
  | cons a t ih =>
    rw [objDelete_cons]
    by_cases h : a.fst = k
    · rw [if_pos h]; exact ih
    · rw [if_neg h, objLookup_cons, if_neg h]; exact ih

theorem objLookup_objDelete_of_none (o : Obj) (k k' : String)
    (h : objLookup o k = none) : objLookup (objDelete o k') k = none := by
  induction o with
  | nil => rfl
  | cons a t ih =>
    rw [objLookup_cons] at h
    by_cases ha : a.fst = k
    · rw [if_pos ha] at h; exact absurd h (by simp)
    · rw [if_neg ha] at h
      rw [objDelete_cons]
      by_cases hb : a.fst = k'
      · rw [if_pos hb]; exact ih h
      · rw [if_neg hb, objLookup_cons, if_neg ha]; exact ih h

/-- C1, counterexample: with an email_change token for alice that
expired at second 50, `verifyEmailChange` at second 100 answers 410 Gone
but the expired token is still in the store afterwards, so the claim
that the consuming operation deletes the expired token is false. -/
theorem c1_expired_email_change_token_not_deleted :
    (verifyEmailChange (sampleDB [expiredChangeTok]) 100 "tokA").1.status = 410 ∧
      getToken (verifyEmailChange (sampleDB [expiredChangeTok]) 100 "tokA").2 "tokA" =
        some expiredChangeTok := by
  decide

/-- C1 (amended): a stored password_reset token whose expiration is
strictly in the past is rejected by `resetPassword` with 410 Gone,
deleted from the store, and the user table is untouched; a stored
email_change token whose expiration is strictly in the past is rejected
by `verifyEmailChange` with 410 Gone and the whole store - the user
included - is untouched, the token staying in place rather than being
deleted. -/
theorem c1_expired_tokens_rejected_never_applied (db : DB) (now : Int)
    (rand : List Nat) (salt : String) (emailOk : Bool) (code : String) (tok : Token)
    (hget : getToken db code = some tok) (hexp : tok.expiration < now) :
    (tok.ty = "password_reset" →
      resetPassword db now rand salt emailOk code =
        ({ status := 410,
           message := "Verification code has expired. Please request a new password reset." },
         deleteToken db code) ∧ (deleteToken db code).users = db.users) ∧
    (tok.ty = "email_change" →
      verifyEmailChange db now code =
        ({ status := 410, message := "Verification token is invalid or has expired." },
         db)) := by
  constructor
  · intro hty
    refine ⟨?_, rfl⟩
    simp [resetPassword, hget, hty, hexp]
  · intro hty
    simp [verifyEmailChange, hget, hexp]

/-- C1, witness: the amended theorem applied to the two concrete expired
tokens. -/
theorem c1_expired_tokens_witness :
    (resetPassword (sampleDB [expiredResetTok]) 100 [1] "s2" true "tokB" =
      ({ status := 410,
         message := "Verification code has expired. Please request a new password reset." },
       deleteToken (sampleDB [expiredResetTok]) "tokB") ∧
     (deleteToken (sampleDB [expiredResetTok]) "tokB").users = (sampleDB [expiredResetTok]).users) ∧
    (verifyEmailChange (sampleDB [expiredChangeTok]) 100 "tokA" =
      ({ status := 410, message := "Verification token is invalid or has expired." },
       sampleDB [expiredChangeTok])) := by
  exact ⟨(c1_expired_tokens_rejected_never_applied (sampleDB [expiredResetTok]) 100 [1] "s2"
            true "tokB" expiredResetTok (by decide) (by decide)).1 (by decide),
         (c1_expired_tokens_rejected_never_applied (sampleDB [expiredChangeTok]) 100 [1] "s2"
            true "tokA" expiredChangeTok (by decide) (by decide)).2 (by decide)⟩

/-- C10: for any stored email_verification token whose owner exists and
is unverified, `verifyEmail` flips the Verified flag to true and deletes
the token; no hypothesis on the token expiration is needed because the
operation never reads it. -/
theorem c10_verifyEmail_ignores_expiration (db : DB) (code : String)
    (tok : Token) (u : User)
    (hget : getToken db code = some tok) (hty : tok.ty = "email_verification")
    (hu : getUser db tok.username = some u) (hv : u.Verified = "false") :
    verifyEmail db code =
      ({ status := 200, message := "email verified" },
       deleteToken (updateUserDb db tok.username "Verified" (JsVal.s "true")) code) := by
  simp [verifyEmail, hget, hty, hu, hv, updateUser, allowedFields]

/-- C10, witness: an email_verification token that expired in the past
(expiration 2, far before any present instant) is still applied. -/
theorem c10_verifyEmail_witness :
    verifyEmail (sampleDB [expiredVerifTok]) "tokC" =
      ({ status := 200, message := "email verified" },
       deleteToken (updateUserDb (sampleDB [expiredVerifTok])
        "alice" "Verified" (JsVal.s "true")) "tokC") := by
  exact c10_verifyEmail_ignores_expiration (sampleDB [expiredVerifTok]) "tokC"
    expiredVerifTok alice (by decide) (by decide) (by decide) (by decide)

theorem strippedClaims_lookups (u : User) :
    objLookup (strippedClaims u) "Password" = none ∧
      objLookup (strippedClaims u) "Liked" = none := by
  constructor
  · exact objLookup_objDelete_of_none _ _ _
      (objLookup_objDelete_of_none _ _ _ (objLookup_objDelete_self _ _))
  · exact objLookup_objDelete_of_none _ _ _ (objLookup_objDelete_self _ _)

/-- A token with a type tag none of the consuming operations expects. -/
def bogusTok : Token :=
  { username := "alice", value := "tokD", ty := "bogus",
    expiration := 99999999, newEmail := some "n@x.com" }

/-- C7: a stored token whose type differs from the one the consuming
operation expects is rejected and the whole state - the user row
included - is left untouched: `verifyEmail` answers 404 for any type
other than email_verification, `verifyEmailChange` answers 410 for any
type other than email_change, and `resetPassword` answers 404 for any
type other than password_reset. -/
theorem c7_wrong_type_token_never_applied (db : DB) (now : Int)
    (rand : List Nat) (salt : String) (emailOk : Bool) (code : String) (tok : Token)
    (hget : getToken db code = some tok) :
    (tok.ty ≠ "email_verification" →
      verifyEmail db code =
        ({ status := 404, message := "invalid or expired verification code" }, db)) ∧
    (tok.ty ≠ "email_change" →
      verifyEmailChange db now code =
        ({ status := 410, message := "Verification token is invalid or has expired." },
         db)) ∧
    (tok.ty ≠ "password_reset" →
      resetPassword db now rand salt emailOk code =
        ({ status := 404, message := "Invalid or expired verification code." }, db)) := by
  refine ⟨?_, ?_, ?_⟩
  · intro hty
    simp [verifyEmail, hget, hty]
  · intro hty
    simp [verifyEmailChange, hget, hty]
  · intro hty
    simp [resetPassword, hget, hty]

/-- C7, witness: a stored token of the unexpected type bogus is turned
away by all three consuming operations with the store unchanged. -/
theorem c7_wrong_type_witness :
    (verifyEmail (sampleDB [bogusTok]) "tokD" =
      ({ status := 404, message := "invalid or expired verification code" },
       sampleDB [bogusTok])) ∧
    (verifyEmailChange (sampleDB [bogusTok]) 100 "tokD" =
      ({ status := 410, message := "Verification token is invalid or has expired." },
       sampleDB [bogusTok])) ∧
    (resetPassword (sampleDB [bogusTok]) 100 [1] "s2" true "tokD" =
      ({ status := 404, message := "Invalid or expired verification code." },
       sampleDB [bogusTok])) := by
  have h := c7_wrong_type_token_never_applied (sampleDB [bogusTok]) 100 [1] "s2" true
    "tokD" bogusTok (by decide)
  exact ⟨h.1 (by decide), h.2.1 (by decide), h.2.2 (by decide)⟩

/-- C6: `verifyUser` answers the one `invalidLoginRes` value - same 401
status, same message - both when the username is absent and when the
password does not match the stored hash; on success the claims object
signed into the access JWT, signed into the refresh JWT, and returned
as the decoded user payload is the stripped object, which contains
neither a Password nor a Liked key. -/
theorem c6_verifyUser_uniform_and_strips (db : DB) (username password : String) :
    (getUser db username = none →
      verifyUser db username password = invalidLoginRes) ∧
    (∀ u, getUser db username = some u → compareHash password u.Password = false →
      verifyUser db username password = invalidLoginRes) ∧
    (∀ u, getUser db username = some u → compareHash password u.Password = true →
      verifyUser db username password =
        { status := 200, message := "", token := some (strippedClaims u),
          refresh := some (strippedClaims u), user := some (strippedClaims u) } ∧
      objLookup (strippedClaims u) "Password" = none ∧
      objLookup (strippedClaims u) "Liked" = none) := by
  refine ⟨?_, ?_, ?_⟩
  · intro h
    simp [verifyUser, h]
  · intro u hu hc
    simp [verifyUser, hu, hc]
  · intro u hu hc
    exact ⟨by simp [verifyUser, hu, hc], (strippedClaims_lookups u).1,
      (strippedClaims_lookups u).2⟩

/-- C6, witness: the three branches at concrete inputs - an absent
user, a wrong password, and the correct password with the stripped
claims free of Password and Liked. -/
theorem c6_verifyUser_witness :
    (verifyUser (sampleDB []) "bob" "whatever1" = invalidLoginRes) ∧
    (verifyUser (sampleDB []) "alice" "wrongpass" = invalidLoginRes) ∧
    (verifyUser (sampleDB []) "alice" "secret11" =
      { status := 200, message := "", token := some (strippedClaims alice),
        refresh := some (strippedClaims alice), user := some (strippedClaims alice) } ∧
     objLookup (strippedClaims alice) "Password" = none ∧
     objLookup (strippedClaims alice) "Liked" = none) := by
  have h := c6_verifyUser_uniform_and_strips (sampleDB []) "alice"
  exact ⟨(c6_verifyUser_uniform_and_strips (sampleDB []) "bob" "whatever1").1 (by decide),
         (h "wrongpass").2.1 alice (by decide) (by decide),
         (h "secret11").2.2 alice (by decide) (by decide)⟩

/-- A lowercase hexadecimal digit character. -/
def isHexCharB (c : Char) : Bool :=
  (decide (Char.ofNat 48 ≤ c) && decide (c ≤ Char.ofNat 57)) ||
    (decide (Char.ofNat 97 ≤ c) && decide (c ≤ Char.ofNat 102))

theorem hexDigitChar_isHex : ∀ n : Nat, n < 16 → isHexCharB (hexDigitChar n) = true := by
  decide

theorem randomBytesHex_length (bytes : List Nat) :
    (randomBytesHex bytes).length = 2 * bytes.length := by
  show (List.flatten (bytes.map byteToHexChars)).length = 2 * bytes.length
  induction bytes with
  | nil => rfl
  | cons b t ih =>
    simp only [List.map_cons, List.flatten_cons, List.length_append, ih,
      byteToHexChars, List.length_cons, List.length_nil, List.length_map]
    omega

theorem randomBytesHex_all_hex (bytes : List Nat) :
    ∀ c ∈ (randomBytesHex bytes).data, isHexCharB c = true := by
  show ∀ c ∈ List.flatten (bytes.map byteToHexChars), isHexCharB c = true
  induction bytes with
  | nil => simp
  | cons b t ih =>
    intro c hc
    simp only [List.map_cons, List.flatten_cons, List.mem_append] at hc
    rcases hc with hc | hc
    · have h256 : b % 256 < 256 := Nat.mod_lt _ (by norm_num)
      simp only [byteToHexChars, List.mem_cons, List.not_mem_nil, or_false] at hc
      rcases hc with hc | hc
      · rw [hc]; exact hexDigitChar_isHex _ (by omega)
      · rw [hc]; exact hexDigitChar_isHex _ (Nat.mod_lt _ (by norm_num))
    · exact ih c hc

/-- An unexpired password-reset token for alice (expiration second 500). -/
def liveResetTok : Token :=
  { username := "alice", value := "tokE", ty := "password_reset",
    expiration := 500, newEmail := none }

/-- The 8 random bytes drawn for the reset password in the concrete run. -/
def randC3 : List Nat := [0, 1, 2, 3, 4, 5, 6, 7]

/-- C3, counterexample: in a concrete successful `resetPassword` run the
code draws 8 random bytes and appends their hex encoding to the
username, so the stored password is the username followed by 16
hexadecimal characters, not by exactly 8 as claimed. -/
theorem c3_reset_password_appends_sixteen_chars :
    (getUser (resetPassword (sampleDB [liveResetTok]) 100 randC3 "s9" true "tokE").2
        "alice" =
      some { alice with Password := genPassHash "s9" ("alice" ++ randomBytesHex randC3) }) ∧
    randC3.length = 8 ∧
    (randomBytesHex randC3).length = 16 ∧
    ¬ (randomBytesHex randC3).length = 8 := by
  decide

/-- C3 (amended): given an unexpired password_reset token for an
existing user, `resetPassword` generates the new password as the
username concatenated with the hex encoding of the 8 random bytes drawn
- 16 hexadecimal characters - stores its bcrypt hash on the user row,
deletes the token, and returns the 200 success response whatever the
outcome of the notification email. -/
theorem c3_resetPassword_generates_password (db : DB) (now : Int)
    (rand : List Nat) (salt : String) (emailOk : Bool) (code : String)
    (tok : Token) (u : User)
    (hget : getToken db code = some tok) (hty : tok.ty = "password_reset")
    (hexp : ¬ tok.expiration < now) (hu : getUser db tok.username = some u)
    (hlen : rand.length = 8) :
    resetPassword db now rand salt emailOk code =
      ({ status := 200,
         message := "Password reset successful. Please check your email for the new password." },
       deleteToken (updateUserDb db tok.username "Password"
         (JsVal.s (genPassHash salt (tok.username ++ randomBytesHex rand)))) code) ∧
    (randomBytesHex rand).length = 16 ∧
    (∀ c ∈ (randomBytesHex rand).data, isHexCharB c = true) := by
  refine ⟨?_, by rw [randomBytesHex_length, hlen], randomBytesHex_all_hex rand⟩
  simp [resetPassword, hget, hty, hexp, hu, updateUser, allowedFields]

/-- C3, witness: the amended theorem at the concrete run, with the
email send failing. -/
theorem c3_resetPassword_witness :
    (resetPassword (sampleDB [liveResetTok]) 100 randC3 "s9" false "tokE" =
      ({ status := 200,
         message := "Password reset successful. Please check your email for the new password." },
       deleteToken (updateUserDb (sampleDB [liveResetTok]) "alice" "Password"
         (JsVal.s (genPassHash "s9" ("alice" ++ randomBytesHex randC3)))) "tokE")) ∧
    (randomBytesHex randC3).length = 16 ∧
    (∀ c ∈ (randomBytesHex randC3).data, isHexCharB c = true) := by
  exact c3_resetPassword_generates_password (sampleDB [liveResetTok]) 100 randC3 "s9"
    false "tokE" liveResetTok alice (by decide) (by decide) (by decide) (by decide)
    (by decide)

/-- A user who can not author content: both Admin and CanPost hold the
literal string false. -/
def carol : User :=
  { Username := "carol", Password := genPassHash "s3" "pw123456",
    Email := "carol@x.com", Admin := "false", CanPost := "false",
    Verified := "true", LastPasswordChange := 7, LastEmailChange := 5,
    Liked := [], ProfilePic := "plain-url",
    ProfilePicChange := PicStamp.strNull, AccountCreated := 1 }

/-- An unpublished article authored by carol. -/
def carolDraft : Article :=
  { ID := "u1", Author := "carol", AuthorProfilePic := "old-url" }

/-- A published article authored by carol. -/
def carolPost : Article :=
  { ID := "p1", Author := "carol", AuthorProfilePic := "old-url" }

/-- A store holding carol and one article of hers in each table. -/
def dbCarol : DB :=
  { users := [carol], tokens := [], images := [],
    articlesUnpublished := [carolDraft], articlesPublished := [carolPost] }

/-- C4: `checkCanPost` says carol can not author content, yet a
successful `changeProfilePic` still rewrites the AuthorProfilePic link
of her article rows in both collections, because the guard tests the
JavaScript truthiness of the strings false rather than `checkCanPost`. -/
theorem c4_articles_repointed_despite_no_author_rights :
    checkCanPost carol = false ∧
    (changeProfilePic dbCarol 1000 "newid" true true "carol").1.status = 200 ∧
    (changeProfilePic dbCarol 1000 "newid" true true "carol").2.articlesPublished =
      [{ carolPost with AuthorProfilePic := awsS3Link ++ "/images/newid.png" }] ∧
    (changeProfilePic dbCarol 1000 "newid" true true "carol").2.articlesUnpublished =
      [{ carolDraft with AuthorProfilePic := awsS3Link ++ "/images/newid.png" }] ∧
    carolPost.AuthorProfilePic ≠ awsS3Link ++ "/images/newid.png" := by
  decide

/-- A user for the email-change scenario. -/
def eve : User :=
  { Username := "eve", Password := genPassHash "s4" "pw123456",
    Email := "eve@x.com", Admin := "false", CanPost := "true",
    Verified := "true", LastPasswordChange := 7, LastEmailChange := 5,
    Liked := ["a"], ProfilePic := "plain-url",
    ProfilePicChange := PicStamp.strNull, AccountCreated := 1 }

/-- A store holding only eve. -/
def dbEve : DB :=
  { users := [eve], tokens := [], images := [],
    articlesUnpublished := [], articlesPublished := [] }

/-- C5: a `requestEmailChange` run at second 20000 (past the 3-hour
cooldown from LastEmailChange = 5) succeeds, creates the 6-hour
email_change token carrying the new address, and stores
LastEmailChange = 20000 on the user row, but the claims embedded in the
returned access token still carry the stale LastEmailChange = 5 and
instead have LastPasswordChange overwritten to 20000 (the row keeps 7),
against the claim that the token reflects the updated LastEmailChange
with other fields unchanged. -/
theorem c5_requestEmailChange_returns_stale_claims :
    ((requestEmailChange dbEve 20000 [9] "eve" "pw123456" "new@x.com").1.status = 200) ∧
    (getUser (requestEmailChange dbEve 20000 [9] "eve" "pw123456" "new@x.com").2 "eve" =
      some { eve with LastEmailChange := 20000 }) ∧
    (getToken (requestEmailChange dbEve 20000 [9] "eve" "pw123456" "new@x.com").2
        (randomBytesHex [9]) =
      some { username := "eve", value := randomBytesHex [9], ty := "email_change",
             expiration := 20000 + 6 * 3600, newEmail := some "new@x.com" }) ∧
    ((requestEmailChange dbEve 20000 [9] "eve" "pw123456" "new@x.com").1.token =
      some (userToObj { eve with LastPasswordChange := 20000 })) ∧
    (objLookup (userToObj { eve with LastPasswordChange := 20000 }) "LastEmailChange" =
      some (JsVal.n 5)) ∧
    ¬ (5 : Int) = 20000 ∧
    (objLookup (userToObj { eve with LastPasswordChange := 20000 }) "LastPasswordChange" =
      some (JsVal.n 20000)) ∧
    eve.LastPasswordChange = 7 := by
  decide

theorem getUser_username_eq (db : DB) (n : String) (u : User)
    (h : getUser db n = some u) : u.Username = n := by
  have h' : List.find? (fun v => v.Username == n) db.users = some u := h
  have := List.find?_some h'
  simpa using this

theorem getUser_s3Remove (ok : Bool) (db : DB) (id n : String) :
    getUser (s3Remove ok db id) n = getUser db n := by
  unfold s3Remove; split <;> rfl

theorem getUser_s3Save (db : DB) (id n : String) :
    getUser (s3Save db id) n = getUser db n := rfl

theorem getUser_updateAuthorPics (db : DB) (a b n : String) :
    getUser (updateAuthorPics db a b) n = getUser db n := rfl

/-- C2: `deleteUserAccount` on an existing user leaves the whole store
untouched and answers 403 Forbidden when the password does not match
the stored hash; when it matches and the external deletions succeed, it
removes the stored profile image (unless its id is the pfp default
sentinel), every token owned by the user, every article authored by
the user in both tables, and the user row itself. -/
theorem c2_deleteUserAccount_spec (db : DB) (s3ok tokOk artOk : Bool)
    (username password : String) (u : User)
    (hu : getUser db username = some u) :
    (compareHash password u.Password = false →
      deleteUserAccount db s3ok tokOk artOk username password =
        ({ status := 403, message := "invalid password." }, db)) ∧
    (compareHash password u.Password = true →
      ∀ idc, jsImagesMatch u.ProfilePic.data = some idc →
        deleteUserAccount db true true true username password =
          ({ status := 200, message := "account deleted succesfuly" },
           { users := List.filter (fun v => v.Username != username) db.users,
             tokens := List.filter (fun t => t.username != username) db.tokens,
             images := if String.mk idc = "pfp" then db.images
                       else List.filter (fun x => x != String.mk idc) db.images,
             articlesUnpublished :=
               List.filter (fun a => a.Author != username) db.articlesUnpublished,
             articlesPublished :=
               List.filter (fun a => a.Author != username) db.articlesPublished })) := by
  constructor
  · intro hc
    simp [deleteUserAccount, hu, hc]
  · intro hc idc hmatch
    have hufind : List.find? (fun v => v.Username == username) db.users = some u := hu
    by_cases hid : String.mk idc = "pfp"
    · simp [deleteUserAccount, hu, hc, hmatch, hid, s3Remove, deleteUserTokens,
        removeAllArticlesByUser, deleteUser, getUser, hufind]
    · simp [deleteUserAccount, hu, hc, hmatch, hid, s3Remove, deleteUserTokens,
        removeAllArticlesByUser, deleteUser, getUser, hufind]

/-- C2, witness: the two branches at concrete inputs - the wrong
password changes nothing and yields 403, the correct password removes
the user, her token, and her article while the default pfp image id is
skipped. -/
theorem c2_deleteUserAccount_witness :
    (deleteUserAccount (sampleDB [expiredChangeTok]) true true true "alice" "wrongpass" =
      ({ status := 403, message := "invalid password." }, sampleDB [expiredChangeTok])) ∧
    (deleteUserAccount (sampleDB [expiredChangeTok]) true true true "alice" "secret11" =
      ({ status := 200, message := "account deleted succesfuly" },
       { users := [], tokens := [], images := ["other-img"],
         articlesUnpublished := [], articlesPublished := [] })) := by
  have h := c2_deleteUserAccount_spec (sampleDB [expiredChangeTok]) true true true
    "alice" "wrongpass" alice (by decide)
  have h2 := c2_deleteUserAccount_spec (sampleDB [expiredChangeTok]) true true true
    "alice" "secret11" alice (by decide)
  refine ⟨h.1 (by decide), ?_⟩
  have := h2.2 (by decide) "pfp".data (by decide)
  rw [this]
  decide

theorem getUser_updateUserDb_stamp (db : DB) (username : String) (now : Int)
    (u : User) (hu : getUser db username = some u) :
    getUser (updateUserDb db username "ProfilePicChange" (JsVal.n now)) username =
      some { u with ProfilePicChange := PicStamp.time now } := by
  rw [getUser_updateUserDb_self, hu]
  simp [setField]

theorem changeProfilePic_succeeds (db : DB) (now : Int) (img : String)
    (rok : Bool) (username : String) (u : User)
    (hu : getUser db username = some u)
    (hcool : checkProfilePictureCooldown now u.ProfilePicChange = true) :
    (changeProfilePic db now img rok true username).1.status = 200 := by
  have huname : u.Username = username := getUser_username_eq db username u hu
  have hupd := getUser_updateUserDb_stamp db username now u hu
  cases hm : matchProfilePicImageId u.ProfilePic with
  | none =>
    cases hj : (jsTruthy u.Admin || jsTruthy u.CanPost) with
    | false =>
      simp [changeProfilePic, hu, hcool, huname, updateUser, allowedFields, hm, hj,
        getUser_s3Save, hupd]
    | true =>
      simp [changeProfilePic, hu, hcool, huname, updateUser, allowedFields, hm, hj,
        getUser_s3Save, getUser_updateAuthorPics, hupd]
  | some oldId =>
    cases hj : (jsTruthy u.Admin || jsTruthy u.CanPost) with
    | false =>
      simp [changeProfilePic, hu, hcool, huname, updateUser, allowedFields, hm, hj,
        getUser_s3Save, getUser_s3Remove, hupd]
    | true =>
      simp [changeProfilePic, hu, hcool, huname, updateUser, allowedFields, hm, hj,
        getUser_s3Save, getUser_s3Remove, getUser_updateAuthorPics, hupd]

/-- C8: `changeProfilePic` for an existing user answers 403 Forbidden -
with nothing touched - whenever fewer than 7*24*60*60 seconds have
elapsed since the ProfilePicChange stamp, answers 200 once at least the
full window has elapsed (the object-store save succeeding), and answers
200 regardless of elapsed time when the stamp holds the null unset
sentinel. -/
theorem c8_profilePic_cooldown (db : DB) (now t : Int) (img : String)
    (rok sok : Bool) (username : String) (u : User)
    (hu : getUser db username = some u) :
    (u.ProfilePicChange = PicStamp.time t → now - t < 7 * 24 * 60 * 60 →
      changeProfilePic db now img rok sok username =
        ({ status := 403,
           message := "the user profile picture was changed in the last week" }, db)) ∧
    (u.ProfilePicChange = PicStamp.time t → ¬ now - t < 7 * 24 * 60 * 60 →
      (changeProfilePic db now img rok true username).1.status = 200) ∧
    (u.ProfilePicChange = PicStamp.strNull →
      (changeProfilePic db now img rok true username).1.status = 200) := by
  refine ⟨?_, ?_, ?_⟩
  · intro hstamp hlt
    have hcool : checkProfilePictureCooldown now u.ProfilePicChange = false := by
      rw [hstamp]
      simp only [checkProfilePictureCooldown]
      rw [if_pos (show now - t < profilePicCooldown from hlt)]
    simp [changeProfilePic, hu, hcool]
  · intro hstamp hge
    have hcool : checkProfilePictureCooldown now u.ProfilePicChange = true := by
      rw [hstamp]
      simp only [checkProfilePictureCooldown]
      rw [if_neg (show ¬ now - t < profilePicCooldown from hge)]
    exact changeProfilePic_succeeds db now img rok username u hu hcool
  · intro hstamp
    have hcool : checkProfilePictureCooldown now u.ProfilePicChange = true := by
      rw [hstamp]
      rfl
    exact changeProfilePic_succeeds db now img rok username u hu hcool

/-- A user whose profile picture was stamped at unix second 1000. -/
def dave : User :=
  { Username := "dave", Password := genPassHash "s5" "pw123456",
    Email := "dave@x.com", Admin := "false", CanPost := "true",
    Verified := "true", LastPasswordChange := 7, LastEmailChange := 5,
    Liked := [], ProfilePic := "plain-url",
    ProfilePicChange := PicStamp.time 1000, AccountCreated := 1 }

/-- A store holding only dave. -/
def dbDave : DB :=
  { users := [dave], tokens := [], images := [],
    articlesUnpublished := [], articlesPublished := [] }

/-- C8, witness: one second before the window closes the call is
rejected with 403 and nothing changes; at exactly 7 days it succeeds;
for alice, whose stamp is the null sentinel, it succeeds immediately. -/
theorem c8_profilePic_cooldown_witness :
    (changeProfilePic dbDave 605799 "img1" true true "dave" =
      ({ status := 403,
         message := "the user profile picture was changed in the last week" }, dbDave)) ∧
    ((changeProfilePic dbDave 605800 "img1" true true "dave").1.status = 200) ∧
    ((changeProfilePic (sampleDB []) 5 "img1" true true "alice").1.status = 200) := by
  have h1 := c8_profilePic_cooldown dbDave 605799 1000 "img1" true true "dave" dave
    (by decide)
  have h2 := c8_profilePic_cooldown dbDave 605800 1000 "img1" true true "dave" dave
    (by decide)
  have h3 := c8_profilePic_cooldown (sampleDB []) 5 1000 "img1" true true "alice" alice
    (by decide)
  exact ⟨h1.1 (by decide) (by decide), h2.2.1 (by decide) (by decide),
    h3.2.2 (by decide)⟩

/-- C9: when the cooldown check passes, `changeProfilePic` writes the
ProfilePicChange stamp through `updateUser` before touching the object
store, so a failed save of the new image yields the 500 server-error
response while the user row keeps the fresh stamp - the cooldown is
consumed - and its ProfilePic url is the one from before the call. -/
theorem c9_save_failure_keeps_stamp (db : DB) (now : Int) (img : String)
    (rok : Bool) (username : String) (u : User)
    (hu : getUser db username = some u)
    (hcool : checkProfilePictureCooldown now u.ProfilePicChange = true) :
    (changeProfilePic db now img rok false username).1 =
      { status := 500, message := "server error" } ∧
    getUser (changeProfilePic db now img rok false username).2 username =
      some { u with ProfilePicChange := PicStamp.time now } := by
  have huname : u.Username = username := getUser_username_eq db username u hu
  have hupd := getUser_updateUserDb_stamp db username now u hu
  cases hm : matchProfilePicImageId u.ProfilePic with
  | none =>
    constructor
    · simp [changeProfilePic, hu, hcool, huname, updateUser, allowedFields, hm]
    · simp [changeProfilePic, hu, hcool, huname, updateUser, allowedFields, hm, hupd]
  | some oldId =>
    constructor
    · simp [changeProfilePic, hu, hcool, huname, updateUser, allowedFields, hm]
    · simp [changeProfilePic, hu, hcool, huname, updateUser, allowedFields, hm,
        getUser_s3Remove, hupd]

/-- C9, witness: the failed save at second 605800 leaves dave with the
fresh stamp and his old url, under the 500 response. -/
theorem c9_save_failure_witness :
    (changeProfilePic dbDave 605800 "img1" true false "dave").1 =
      { status := 500, message := "server error" } ∧
    getUser (changeProfilePic dbDave 605800 "img1" true false "dave").2 "dave" =
      some { dave with ProfilePicChange := PicStamp.time 605800 } := by
  exact c9_save_failure_keeps_stamp dbDave 605800 "img1" true "dave" dave
    (by decide) (by decide)
